import Mathlib

/-!
Shallow embedding of `src/mipidsi/src/models/ili9488.rs`: the ILI9488 display
driver model in its two color variants (Rgb565 and Rgb666).  Effectful code is
modelled by explicit state passing over a command-channel state that records a
trace of wire events; per-operation transport success is decided by an oracle
`env : Nat → Bool`, consulted once per channel operation.  Crate types that the
driver uses but whose code is not under src/ (`ModelOptions`, `SetAddressMode`,
`PixelFormat`, `InitError`, the `Dcs` channel, the default `Model::hard_reset`,
the builder entry points) are modelled from the spec, as marked below.
-/

namespace ILI9488

/-- Transport-level runtime error (`crate::Error`); only transport failures occur. -/
inductive Error where
  | displayError
deriving DecidableEq, Repr

/-- Reset-pin error: the generic `RST::Error` type parameter, instantiated with a
one-element type. -/
inductive PinError where
  | failed
deriving DecidableEq, Repr

/-- Modelled from the spec: `InitError` (crate error type absent from src/), which
wraps either a transport failure or a reset-pin failure, distinguished. -/
inductive InitError where
  | displayError
  | pin (e : PinError)
deriving DecidableEq, Repr

/-- Modelled from the spec: `ModelOptions` (crate configuration type absent from
src/): framebuffer/display size, color-inversion flag, address-mode orientation bits. -/
structure ModelOptions where
  framebuffer_size : Nat × Nat
  display_size : Nat × Nat
  invert_colors : Bool
  orientation_bits : Nat
deriving DecidableEq, Repr

/-- Modelled from the spec: `ModelOptions::with_sizes` builds options from the two
sizes, with inversion off and default orientation. -/
def ModelOptions.with_sizes (fb ds : Nat × Nat) : ModelOptions :=
  { framebuffer_size := fb, display_size := ds, invert_colors := false,
    orientation_bits := 0 }

/-- Modelled from the spec: `SetAddressMode`, the addressing-mode descriptor
derived deterministically from `ModelOptions` (orientation/scan-direction bits). -/
structure SetAddressMode where
  bits : Nat
deriving DecidableEq, Repr

/-- Modelled from the spec: `SetAddressMode::from(&ModelOptions)`, the
deterministic derivation of the descriptor from the options. -/
def SetAddressMode.ofOptions (o : ModelOptions) : SetAddressMode :=
  ⟨o.orientation_bits⟩

/-- Modelled from the spec: bits-per-pixel of a color format. -/
inductive BitsPerPixel where
  | sixteen
  | eighteen
deriving DecidableEq, Repr

/-- Modelled from the spec: `BitsPerPixel::from_rgb_color::<Rgb565>()` is 16 bpp. -/
def BitsPerPixel.fromRgb565 : BitsPerPixel := .sixteen

/-- Modelled from the spec: `BitsPerPixel::from_rgb_color::<Rgb666>()` is 18 bpp. -/
def BitsPerPixel.fromRgb666 : BitsPerPixel := .eighteen

/-- Modelled from the spec: `PixelFormat`, holding the bits-per-pixel configuration. -/
structure PixelFormat where
  bpp : BitsPerPixel
deriving DecidableEq, Repr

/-- Modelled from the spec: `PixelFormat::with_all`. -/
def PixelFormat.with_all (b : BitsPerPixel) : PixelFormat := ⟨b⟩

/-- Rgb565 color (embedded-graphics): 5-bit red, 6-bit green, 5-bit blue channels.
Channels are masked to width on use, mirroring the crate type invariant. -/
structure Rgb565 where
  r : Nat
  g : Nat
  b : Nat
deriving DecidableEq, Repr

/-- The `IntoStorage` packing of an Rgb565 color: the native 16-bit value
r«11 | g«5 | b. -/
def Rgb565.into_storage (c : Rgb565) : Nat :=
  (c.r % 32) * 2048 + (c.g % 64) * 32 + (c.b % 32)

/-- Rgb666 color (embedded-graphics): three 6-bit channels. -/
structure Rgb666 where
  r : Nat
  g : Nat
  b : Nat
deriving DecidableEq, Repr

/-- Channel accessor `c.r()`: the stored 6-bit red channel. -/
def Rgb666.red (c : Rgb666) : Nat := c.r % 64

/-- Channel accessor `c.g()`: the stored 6-bit green channel. -/
def Rgb666.green (c : Rgb666) : Nat := c.g % 64

/-- Channel accessor `c.b()`: the stored 6-bit blue channel. -/
def Rgb666.blue (c : Rgb666) : Nat := c.b % 64

/-- The DCS commands written by this driver via `Dcs::write_command`. -/
inductive DcsCommand where
  | softReset
  | setAddressMode (m : SetAddressMode)
  | setInvertMode (invert : Bool)
  | setPixelFormat (pf : PixelFormat)
  | exitSleepMode
  | enterNormalMode
  | setDisplayOn
  | writeMemoryStart
deriving DecidableEq, Repr

/-- Pixel-data formats handed to `send_data` (display-interface `DataFormat`):
a 16-bit word iterator serialized big-endian, or a plain byte iterator. -/
inductive DataFormat where
  | u16beIter (words : List Nat)
  | u8Iter (bytes : List Nat)
deriving DecidableEq, Repr

/-- Big-endian serialization of one 16-bit word, per the display-interface
`U16BEIter` contract. -/
def u16be (w : Nat) : List Nat := [w / 256 % 256, w % 256]

/-- The byte stream a `DataFormat` produces on the wire. -/
def DataFormat.toBytes : DataFormat → List Nat
  | .u16beIter ws => ws.flatMap u16be
  | .u8Iter bs => bs

/-- Observable wire/timing events issued by the driver.  `resetAssert` and
`resetRelease` are the two edges of the hardware reset pulse on the reset pin. -/
inductive Event where
  | writeCommand (c : DcsCommand)
  | writeRaw (opcode : Nat) (payload : List Nat)
  | sendData (d : DataFormat)
  | delayUs (us : Nat)
  | resetAssert
  | resetRelease
deriving DecidableEq, Repr

/-- Tests whether an event is a delay-provider invocation. -/
def Event.isDelay : Event → Bool
  | .delayUs _ => true
  | _ => false

/-- Extracts the opcode/payload pair of a raw register write. -/
def Event.rawPair : Event → Option (Nat × List Nat)
  | .writeRaw op payload => some (op, payload)
  | _ => none

/-- Modelled from the spec: the Command Channel boundary state.  `env n` says
whether the n-th channel operation succeeds; `idx` counts channel operations
issued so far; `trace` records every event issued. -/
structure Chan where
  env : Nat → Bool
  idx : Nat
  trace : List Event

/-- State-passing effect monad: computations take the channel state and return a
result (or error) together with the updated state. -/
def DcsM (ε α : Type) : Type := Chan → Except ε α × Chan

/-- Monadic return. -/
def DcsM.pure {ε α : Type} (a : α) : DcsM ε α := fun s => (.ok a, s)

/-- Monadic sequencing with error short-circuit (the Rust `?` operator). -/
def DcsM.bind {ε α β : Type} (x : DcsM ε α) (f : α → DcsM ε β) : DcsM ε β :=
  fun s =>
    match x s with
    | (.ok a, s') => f a s'
    | (.error e, s') => (.error e, s')

/-- Error conversion (the `From` conversion applied by `?` across error types). -/
def DcsM.mapErr {ε ε' α : Type} (g : ε → ε') (x : DcsM ε α) : DcsM ε' α :=
  fun s =>
    match x s with
    | (.ok a, s') => (.ok a, s')
    | (.error e, s') => (.error (g e), s')

/-- Append an event to the trace and advance the channel-operation counter. -/
def Chan.advance (s : Chan) (e : Event) : Chan :=
  { s with idx := s.idx + 1, trace := s.trace ++ [e] }

/-- One channel operation: issues the event, succeeds or fails according to the
oracle at the current operation index. -/
def chanOp (e : Event) : DcsM Error Unit := fun s =>
  if s.env s.idx then (.ok (), s.advance e) else (.error .displayError, s.advance e)

/-- `Dcs::write_command`: a channel operation carrying a DCS command. -/
def write_command (c : DcsCommand) : DcsM Error Unit := chanOp (.writeCommand c)

/-- `Dcs::write_raw`: a channel operation carrying a raw opcode and payload. -/
def write_raw (op : Nat) (payload : List Nat) : DcsM Error Unit :=
  chanOp (.writeRaw op payload)

/-- `send_data` on the display interface: a channel operation carrying pixel data. -/
def send_data (d : DataFormat) : DcsM Error Unit := chanOp (.sendData d)

/-- `delay.delay_us(us)`: blocking delay; cannot fail and is not a channel
operation, but is recorded in the trace. -/
def delay_us {ε : Type} (us : Nat) : DcsM ε Unit := fun s =>
  (.ok (), { s with trace := s.trace ++ [.delayUs us] })

/-- Modelled from the spec: the provider-defined settle time of the hardware
reset cycle (the spec fixes no value; the concrete crate uses 10 µs). -/
def resetSettleUs : Nat := 10

/-- Modelled from the spec: the default `Model::hard_reset` (crate code absent
from src/): the hardware reset pulse-and-release-and-settle cycle driven on the
reset pin, with provider-defined timing through the delay collaborator.  The
pin argument says whether pin operations succeed; a failing pin aborts the
cycle at the first edge with a pin error. -/
def hard_reset (pinOk : Bool) : DcsM PinError Unit := fun s =>
  if pinOk then
    (.ok (), { s with trace :=
      s.trace ++ [.resetAssert, .delayUs resetSettleUs, .resetRelease] })
  else
    (.error .failed, { s with trace := s.trace ++ [.resetAssert] })

/-- The raw-instruction opcode table of the ILI9488 driver (`enum Instruction`). -/
inductive Instruction where
  | GMCTRP1
  | GMCTRN1
  | PWCTR1
  | PWCTR2
  | VMCTR1
  | FRMCTR1
  | DFUNCTR
  | SIMFUNC
deriving DecidableEq, Repr

/-- The discriminant values of `enum Instruction` (`Instruction::X as u8`). -/
def Instruction.val : Instruction → Nat
  | .GMCTRP1 => 0xE0
  | .GMCTRN1 => 0xE1
  | .PWCTR1 => 0xC0
  | .PWCTR2 => 0xC1
  | .VMCTR1 => 0xC5
  | .FRMCTR1 => 0xB1
  | .DFUNCTR => 0xB6
  | .SIMFUNC => 0xE9

/-- `init_common`: the shared register sequence of both variants, mirroring the
source statement by statement. -/
def init_common (options : ModelOptions) (pixel_format : PixelFormat) :
    DcsM Error SetAddressMode :=
  let madctl := SetAddressMode.ofOptions options
  DcsM.bind (write_command (.setAddressMode madctl)) fun _ =>
  DcsM.bind (write_command (.setInvertMode options.invert_colors)) fun _ =>
  DcsM.bind (write_command (.setPixelFormat pixel_format)) fun _ =>
  DcsM.bind (write_raw Instruction.PWCTR1.val [0x17, 0x15]) fun _ =>
  DcsM.bind (write_raw Instruction.PWCTR2.val [0x41]) fun _ =>
  DcsM.bind (write_raw Instruction.VMCTR1.val [0x00, 0x12, 0x80]) fun _ =>
  DcsM.bind (write_raw Instruction.FRMCTR1.val [0xA0]) fun _ =>
  DcsM.bind (write_raw Instruction.SIMFUNC.val [0x00]) fun _ =>
  DcsM.bind (write_raw Instruction.GMCTRP1.val
    [0x00, 0x03, 0x09, 0x08, 0x16, 0x0A, 0x3F, 0x78, 0x4C, 0x09, 0x0A, 0x08,
     0x16, 0x1A, 0x0F]) fun _ =>
  DcsM.bind (write_raw Instruction.GMCTRN1.val
    [0x00, 0x0E, 0x14, 0x03, 0x11, 0x07, 0x31, 0xC1, 0x48, 0x08, 0x0F, 0x0C,
     0x31, 0x36, 0x0F]) fun _ =>
  DcsM.bind (write_raw Instruction.DFUNCTR.val [0x02, 0x02, 0x3B]) fun _ =>
  DcsM.bind (write_command .exitSleepMode) fun _ =>
  DcsM.bind (write_command .enterNormalMode) fun _ =>
  DcsM.bind (delay_us 120000) fun _ =>
  DcsM.bind (write_command .setDisplayOn) fun _ =>
  DcsM.pure madctl

namespace ILI9488Rgb565

/-- `ILI9488Rgb565::init`: reset (hardware pulse if a reset handle is present,
else software reset), 120000 µs wait, then the common register sequence with the
16 bpp pixel format.  `rst` carries the reset handle as an optional pin. -/
def init (options : ModelOptions) (rst : Option Bool) :
    DcsM InitError SetAddressMode :=
  DcsM.bind
    (match rst with
     | some pinOk => DcsM.mapErr InitError.pin (hard_reset pinOk)
     | none => DcsM.mapErr (fun _ => InitError.displayError)
         (write_command .softReset)) fun _ =>
  DcsM.bind (delay_us 120000) fun _ =>
  let pf := PixelFormat.with_all BitsPerPixel.fromRgb565
  DcsM.mapErr (fun _ => InitError.displayError) (init_common options pf)

/-- `ILI9488Rgb565::write_pixels`: memory-write-start command, then the colors'
packed 16-bit storage values streamed as a big-endian word iterator. -/
def write_pixels (colors : List Rgb565) : DcsM Error Unit :=
  DcsM.bind (write_command .writeMemoryStart) fun _ =>
  send_data (.u16beIter (colors.map Rgb565.into_storage))

/-- `ILI9488Rgb565::default_options`. -/
def default_options : ModelOptions :=
  ModelOptions.with_sizes (320, 480) (320, 480)

end ILI9488Rgb565

namespace ILI9488Rgb666

/-- `ILI9488Rgb666::init`: identical to the Rgb565 variant except for the 18 bpp
pixel format. -/
def init (options : ModelOptions) (rst : Option Bool) :
    DcsM InitError SetAddressMode :=
  DcsM.bind
    (match rst with
     | some pinOk => DcsM.mapErr InitError.pin (hard_reset pinOk)
     | none => DcsM.mapErr (fun _ => InitError.displayError)
         (write_command .softReset)) fun _ =>
  DcsM.bind (delay_us 120000) fun _ =>
  let pf := PixelFormat.with_all BitsPerPixel.fromRgb666
  DcsM.mapErr (fun _ => InitError.displayError) (init_common options pf)

/-- `ILI9488Rgb666::write_pixels`: memory-write-start command, then for each
color the three channel values each left-shifted by 2 (u8 arithmetic, hence the
mod 256), in red, green, blue order, streamed as a byte iterator. -/
def write_pixels (colors : List Rgb666) : DcsM Error Unit :=
  DcsM.bind (write_command .writeMemoryStart) fun _ =>
  send_data (.u8Iter (colors.flatMap fun c =>
    [c.red * 4 % 256, c.green * 4 % 256, c.blue * 4 % 256]))

/-- `ILI9488Rgb666::default_options`. -/
def default_options : ModelOptions :=
  ModelOptions.with_sizes (320, 480) (320, 480)

end ILI9488Rgb666

/-- The two concrete model variants, as values a builder can store (the Rust
`MODEL` type parameter instantiated at the two unit structs of this file). -/
inductive ModelKind where
  | ili9488rgb565
  | ili9488rgb666
deriving DecidableEq, Repr

/-- `MODEL::default_options()` resolved per variant. -/
def ModelKind.default_options : ModelKind → ModelOptions
  | .ili9488rgb565 => ILI9488Rgb565.default_options
  | .ili9488rgb666 => ILI9488Rgb666.default_options

/-- Modelled from the spec: the builder state (crate builder code absent from
src/) as far as it matters here — the stored model and the options the
construction starts from; the channel handle is external. -/
structure Builder where
  model : ModelKind
  options : ModelOptions
deriving DecidableEq, Repr

/-- Modelled from the spec: `Builder::with_model(di, model)` (crate builder code
absent from src/), which stores the model and applies the model's
`default_options()` unless the caller later overrides them. -/
def Builder.with_model (model : ModelKind) : Builder :=
  ⟨model, model.default_options⟩

/-- `Builder::ili9488_rgb565(di)` (src lines 133-135):
`Self::with_model(di, ILI9488Rgb565)`. -/
def Builder.ili9488_rgb565 : Builder := Builder.with_model .ili9488rgb565

/-- `Builder::ili9488_rgb666(di)` (src lines 150-152):
`Self::with_model(di, ILI9488Rgb666)`. -/
def Builder.ili9488_rgb666 : Builder := Builder.with_model .ili9488rgb666

/-- The events a successful `init_common` issues, in order. -/
def initTail (options : ModelOptions) (pf : PixelFormat) : List Event :=
  [.writeCommand (.setAddressMode (SetAddressMode.ofOptions options)),
   .writeCommand (.setInvertMode options.invert_colors),
   .writeCommand (.setPixelFormat pf),
   .writeRaw 0xC0 [0x17, 0x15],
   .writeRaw 0xC1 [0x41],
   .writeRaw 0xC5 [0x00, 0x12, 0x80],
   .writeRaw 0xB1 [0xA0],
   .writeRaw 0xE9 [0x00],
   .writeRaw 0xE0 [0x00, 0x03, 0x09, 0x08, 0x16, 0x0A, 0x3F, 0x78, 0x4C, 0x09,
     0x0A, 0x08, 0x16, 0x1A, 0x0F],
   .writeRaw 0xE1 [0x00, 0x0E, 0x14, 0x03, 0x11, 0x07, 0x31, 0xC1, 0x48, 0x08,
     0x0F, 0x0C, 0x31, 0x36, 0x0F],
   .writeRaw 0xB6 [0x02, 0x02, 0x3B],
   .writeCommand .exitSleepMode,
   .writeCommand .enterNormalMode,
   .delayUs 120000,
   .writeCommand .setDisplayOn]

/-- The events a successful reset step issues: the full hardware pulse cycle
when a reset handle is present, the software-reset command otherwise. -/
def resetEvents : Option Bool → List Event
  | some _ => [.resetAssert, .delayUs resetSettleUs, .resetRelease]
  | none => [.writeCommand .softReset]

/-- The events a failing reset step leaves behind: the first pin edge, or the
attempted software-reset command. -/
def resetAbort : Option Bool → List Event
  | some _ => [.resetAssert]
  | none => [.writeCommand .softReset]

/-- Channel operations consumed by the reset step (the software reset is a
channel operation, the pin pulse is not). -/
def resetOps : Option Bool → Nat
  | some _ => 0
  | none => 1

/-- The common shape of both variants' `init`: reset choice, wait, then the
shared sequence with the variant's pixel format. -/
def initShape (opts : ModelOptions) (rst : Option Bool) (pf : PixelFormat) :
    DcsM InitError SetAddressMode :=
  DcsM.bind
    (match rst with
     | some pinOk => DcsM.mapErr InitError.pin (hard_reset pinOk)
     | none => DcsM.mapErr (fun _ => InitError.displayError)
         (write_command .softReset)) fun _ =>
  DcsM.bind (delay_us 120000) fun _ =>
  DcsM.mapErr (fun _ => InitError.displayError) (init_common opts pf)


theorem chanOp_ok {e : Event} {s : Chan} {b : Unit} {s' : Chan}
    (h : chanOp e s = (.ok b, s')) : s.env s.idx = true ∧ s' = s.advance e := by
  by_cases hx : s.env s.idx
  · simp only [chanOp, if_pos hx, Prod.mk.injEq] at h
    exact ⟨hx, h.2.symm⟩
  · exfalso
    simp only [chanOp, if_neg hx, Prod.mk.injEq] at h
    exact absurd h.1 (by simp)

theorem chanOp_bind_ok {β : Type} {e : Event} {f : Unit → DcsM Error β} {s : Chan}
    {b : β} {s' : Chan} (h : DcsM.bind (chanOp e) f s = (.ok b, s')) :
    s.env s.idx = true ∧ f () (s.advance e) = (.ok b, s') := by
  by_cases hx : s.env s.idx
  · refine ⟨hx, ?_⟩
    simpa [DcsM.bind, chanOp, hx] using h
  · exfalso
    simp only [DcsM.bind, chanOp, if_neg hx] at h
    exact absurd h (by simp)

theorem chanOp_bind_run {β : Type} {e : Event} {f : Unit → DcsM Error β} {s : Chan}
    {r : Except Error β} {s' : Chan} (h : DcsM.bind (chanOp e) f s = (r, s')) :
    f () (s.advance e) = (r, s') ∨
      (r = .error .displayError ∧ s' = s.advance e) := by
  by_cases hx : s.env s.idx
  · left
    simpa [DcsM.bind, chanOp, hx] using h
  · right
    simp only [DcsM.bind, chanOp, if_neg hx] at h
    simp only [Prod.mk.injEq] at h
    exact ⟨h.1.symm, h.2.symm⟩

theorem bind_delay {ε β : Type} (us : Nat) (f : Unit → DcsM ε β) (s : Chan) :
    DcsM.bind (delay_us us) f s = f () { s with trace := s.trace ++ [.delayUs us] } :=
  rfl

theorem pure_eq {ε α : Type} (a : α) (s : Chan) :
    (DcsM.pure a : DcsM ε α) s = (.ok a, s) := rfl

theorem bind_err {ε α β : Type} {x : DcsM ε α} {f : α → DcsM ε β} {s s' : Chan}
    {e : ε} (h : DcsM.bind x f s = (.error e, s')) :
    x s = (.error e, s') ∨ ∃ a s1, x s = (.ok a, s1) ∧ f a s1 = (.error e, s') := by
  rcases hx : x s with ⟨r0, s1⟩
  unfold DcsM.bind at h
  rw [hx] at h
  cases r0 with
  | ok a => exact Or.inr ⟨a, s1, rfl, h⟩
  | error e0 => left; simp_all

theorem mapErr_ok {ε ε' α : Type} {g : ε → ε'} {x : DcsM ε α} {s : Chan}
    {a : α} {s' : Chan} (h : DcsM.mapErr g x s = (.ok a, s')) :
    x s = (.ok a, s') := by
  rcases hx : x s with ⟨r0, s1⟩
  unfold DcsM.mapErr at h
  rw [hx] at h
  cases r0 <;> simp_all

theorem mapErr_state {ε ε' α : Type} {g : ε → ε'} {x : DcsM ε α} {s : Chan}
    {r : Except ε' α} {s' : Chan} (h : DcsM.mapErr g x s = (r, s')) :
    ∃ r0, x s = (r0, s') := by
  rcases hx : x s with ⟨r0, s1⟩
  unfold DcsM.mapErr at h
  rw [hx] at h
  cases r0 with
  | ok a =>
    simp only [Prod.mk.injEq] at h
    exact ⟨.ok a, by rw [h.2]⟩
  | error e0 =>
    simp only [Prod.mk.injEq] at h
    exact ⟨.error e0, by rw [h.2]⟩

theorem mapErr_err {ε ε' α : Type} {g : ε → ε'} {x : DcsM ε α} {s : Chan}
    {e' : ε'} {s' : Chan} (h : DcsM.mapErr g x s = (.error e', s')) :
    ∃ e, e' = g e := by
  rcases hx : x s with ⟨r0, s1⟩
  unfold DcsM.mapErr at h
  rw [hx] at h
  cases r0 with
  | ok a => simp_all
  | error e0 => exact ⟨e0, by simp_all⟩

theorem delay_never_err {ε : Type} {us : Nat} {s s' : Chan} {e : ε}
    (h : delay_us us s = (.error e, s')) : False := by
  simp [delay_us] at h

theorem init_common_ok {env : Nat → Bool} {idx : Nat} {tr : List Event}
    {a : SetAddressMode} {s' : Chan} (opts : ModelOptions) (pf : PixelFormat)
    (h : init_common opts pf ⟨env, idx, tr⟩ = (.ok a, s')) :
    a = SetAddressMode.ofOptions opts ∧
    s' = ⟨env, idx + 14, tr ++ initTail opts pf⟩ := by
  simp only [init_common, write_command, write_raw, Instruction.val] at h
  obtain ⟨-, h⟩ := chanOp_bind_ok h
  simp only [Chan.advance] at h
  obtain ⟨-, h⟩ := chanOp_bind_ok h
  simp only [Chan.advance] at h
  obtain ⟨-, h⟩ := chanOp_bind_ok h
  simp only [Chan.advance] at h
  obtain ⟨-, h⟩ := chanOp_bind_ok h
  simp only [Chan.advance] at h
  obtain ⟨-, h⟩ := chanOp_bind_ok h
  simp only [Chan.advance] at h
  obtain ⟨-, h⟩ := chanOp_bind_ok h
  simp only [Chan.advance] at h
  obtain ⟨-, h⟩ := chanOp_bind_ok h
  simp only [Chan.advance] at h
  obtain ⟨-, h⟩ := chanOp_bind_ok h
  simp only [Chan.advance] at h
  obtain ⟨-, h⟩ := chanOp_bind_ok h
  simp only [Chan.advance] at h
  obtain ⟨-, h⟩ := chanOp_bind_ok h
  simp only [Chan.advance] at h
  obtain ⟨-, h⟩ := chanOp_bind_ok h
  simp only [Chan.advance] at h
  obtain ⟨-, h⟩ := chanOp_bind_ok h
  simp only [Chan.advance] at h
  obtain ⟨-, h⟩ := chanOp_bind_ok h
  simp only [Chan.advance] at h
  rw [bind_delay] at h
  obtain ⟨-, h⟩ := chanOp_bind_ok h
  simp only [Chan.advance] at h
  rw [pure_eq] at h
  simp only [Prod.mk.injEq, Except.ok.injEq] at h
  obtain ⟨ha, hs⟩ := h
  refine ⟨ha.symm, ?_⟩
  rw [← hs]
  simp only [Chan.mk.injEq, initTail, List.append_assoc, List.cons_append,
    List.nil_append, List.singleton_append]

theorem init_common_run {env : Nat → Bool} {idx : Nat} {tr : List Event}
    {r : Except Error SetAddressMode} {s' : Chan} (opts : ModelOptions)
    (pf : PixelFormat) (h : init_common opts pf ⟨env, idx, tr⟩ = (r, s')) :
    ∃ k, k ≤ 15 ∧ s'.trace = tr ++ (initTail opts pf).take k := by
  simp only [init_common, write_command, write_raw, Instruction.val] at h
  rcases chanOp_bind_run h with h | ⟨-, rfl⟩
  on_goal 2 => exact ⟨1, by norm_num, by simp [Chan.advance, initTail]⟩
  simp only [Chan.advance] at h
  rcases chanOp_bind_run h with h | ⟨-, rfl⟩
  on_goal 2 => exact ⟨2, by norm_num, by simp [Chan.advance, initTail]⟩
  simp only [Chan.advance] at h
  rcases chanOp_bind_run h with h | ⟨-, rfl⟩
  on_goal 2 => exact ⟨3, by norm_num, by simp [Chan.advance, initTail]⟩
  simp only [Chan.advance] at h
  rcases chanOp_bind_run h with h | ⟨-, rfl⟩
  on_goal 2 => exact ⟨4, by norm_num, by simp [Chan.advance, initTail]⟩
  simp only [Chan.advance] at h
  rcases chanOp_bind_run h with h | ⟨-, rfl⟩
  on_goal 2 => exact ⟨5, by norm_num, by simp [Chan.advance, initTail]⟩
  simp only [Chan.advance] at h
  rcases chanOp_bind_run h with h | ⟨-, rfl⟩
  on_goal 2 => exact ⟨6, by norm_num, by simp [Chan.advance, initTail]⟩
  simp only [Chan.advance] at h
  rcases chanOp_bind_run h with h | ⟨-, rfl⟩
  on_goal 2 => exact ⟨7, by norm_num, by simp [Chan.advance, initTail]⟩
  simp only [Chan.advance] at h
  rcases chanOp_bind_run h with h | ⟨-, rfl⟩
  on_goal 2 => exact ⟨8, by norm_num, by simp [Chan.advance, initTail]⟩
  simp only [Chan.advance] at h
  rcases chanOp_bind_run h with h | ⟨-, rfl⟩
  on_goal 2 => exact ⟨9, by norm_num, by simp [Chan.advance, initTail]⟩
  simp only [Chan.advance] at h
  rcases chanOp_bind_run h with h | ⟨-, rfl⟩
  on_goal 2 => exact ⟨10, by norm_num, by simp [Chan.advance, initTail]⟩
  simp only [Chan.advance] at h
  rcases chanOp_bind_run h with h | ⟨-, rfl⟩
  on_goal 2 => exact ⟨11, by norm_num, by simp [Chan.advance, initTail]⟩
  simp only [Chan.advance] at h
  rcases chanOp_bind_run h with h | ⟨-, rfl⟩
  on_goal 2 => exact ⟨12, by norm_num, by simp [Chan.advance, initTail]⟩
  simp only [Chan.advance] at h
  rcases chanOp_bind_run h with h | ⟨-, rfl⟩
  on_goal 2 => exact ⟨13, by norm_num, by simp [Chan.advance, initTail]⟩
  simp only [Chan.advance] at h
  rw [bind_delay] at h
  rcases chanOp_bind_run h with h | ⟨-, rfl⟩
  on_goal 2 => exact ⟨15, by norm_num, by simp [Chan.advance, initTail]⟩
  simp only [Chan.advance] at h
  rw [pure_eq] at h
  simp only [Prod.mk.injEq] at h
  exact ⟨15, by norm_num, by rw [← h.2]; simp [initTail]⟩

theorem init565_eq (opts : ModelOptions) (rst : Option Bool) :
    ILI9488Rgb565.init opts rst = initShape opts rst ⟨.sixteen⟩ := rfl

theorem init666_eq (opts : ModelOptions) (rst : Option Bool) :
    ILI9488Rgb666.init opts rst = initShape opts rst ⟨.eighteen⟩ := rfl

theorem initShape_pinfail (opts : ModelOptions) (pf : PixelFormat)
    (env : Nat → Bool) (idx : Nat) (tr : List Event) :
    initShape opts (some false) pf ⟨env, idx, tr⟩ =
      (.error (.pin .failed), ⟨env, idx, tr ++ [.resetAssert]⟩) := rfl

theorem initShape_ok {env : Nat → Bool} {idx : Nat} {tr : List Event}
    {a : SetAddressMode} {s' : Chan} (opts : ModelOptions) (rst : Option Bool)
    (pf : PixelFormat) (h : initShape opts rst pf ⟨env, idx, tr⟩ = (.ok a, s')) :
    a = SetAddressMode.ofOptions opts ∧
    s' = ⟨env, idx + resetOps rst + 14,
      tr ++ resetEvents rst ++ Event.delayUs 120000 :: initTail opts pf⟩ := by
  cases rst with
  | some pinOk =>
    cases pinOk with
    | false =>
      exfalso
      simp [initShape, DcsM.bind, DcsM.mapErr, hard_reset] at h
    | true =>
      simp only [initShape, DcsM.bind, DcsM.mapErr, hard_reset, if_pos,
        delay_us] at h
      have h2 := mapErr_ok h
      obtain ⟨ha, hs⟩ := init_common_ok opts pf h2
      refine ⟨ha, ?_⟩
      rw [hs]
      simp [resetOps, resetEvents]
  | none =>
    by_cases hx : env idx
    · simp only [initShape, DcsM.bind, DcsM.mapErr, write_command, chanOp,
        Chan.advance, if_pos hx, delay_us] at h
      have h2 := mapErr_ok h
      obtain ⟨ha, hs⟩ := init_common_ok opts pf h2
      refine ⟨ha, ?_⟩
      rw [hs]
      simp [resetOps, resetEvents]
    · exfalso
      simp [initShape, DcsM.bind, DcsM.mapErr, write_command, chanOp,
        if_neg hx] at h

theorem initShape_run {env : Nat → Bool} {idx : Nat} {tr : List Event}
    {r : Except InitError SetAddressMode} {s' : Chan} (opts : ModelOptions)
    (rst : Option Bool) (pf : PixelFormat)
    (h : initShape opts rst pf ⟨env, idx, tr⟩ = (r, s')) :
    s'.trace = tr ++ resetAbort rst ∨
    ∃ k, k ≤ 15 ∧ s'.trace =
      tr ++ resetEvents rst ++ Event.delayUs 120000 :: (initTail opts pf).take k := by
  cases rst with
  | some pinOk =>
    cases pinOk with
    | false =>
      rw [initShape_pinfail] at h
      simp only [Prod.mk.injEq] at h
      left
      rw [← h.2]
      simp [resetAbort]
    | true =>
      simp only [initShape, DcsM.bind, DcsM.mapErr, hard_reset, if_pos,
        delay_us] at h
      obtain ⟨r0, h2⟩ := mapErr_state h
      obtain ⟨k, hk, ht⟩ := init_common_run opts pf h2
      right
      refine ⟨k, hk, ?_⟩
      rw [ht]
      simp [resetEvents]
  | none =>
    by_cases hx : env idx
    · simp only [initShape, DcsM.bind, DcsM.mapErr, write_command, chanOp,
        Chan.advance, if_pos hx, delay_us] at h
      obtain ⟨r0, h2⟩ := mapErr_state h
      obtain ⟨k, hk, ht⟩ := init_common_run opts pf h2
      right
      refine ⟨k, hk, ?_⟩
      rw [ht]
      simp [resetEvents]
    · simp only [initShape, DcsM.bind, DcsM.mapErr, write_command, chanOp,
        Chan.advance, if_neg hx] at h
      simp only [Prod.mk.injEq] at h
      left
      rw [← h.2]
      simp [resetAbort]

theorem initShape_err {env : Nat → Bool} {idx : Nat} {tr : List Event}
    {e : InitError} {s' : Chan} (opts : ModelOptions) (rst : Option Bool)
    (pf : PixelFormat)
    (h : initShape opts rst pf ⟨env, idx, tr⟩ = (.error e, s'))
    (hr : rst = none ∨ rst = some true) : e = .displayError := by
  rcases bind_err h with h1 | ⟨a, s1, -, h1⟩
  · rcases hr with rfl | rfl
    · obtain ⟨e0, he⟩ := mapErr_err h1
      exact he
    · exfalso
      simp [DcsM.mapErr, hard_reset] at h1
  · rcases bind_err h1 with h2 | ⟨b, s2, -, h2⟩
    · exact absurd h2 (fun hc => delay_never_err hc)
    · obtain ⟨e0, he⟩ := mapErr_err h2
      exact he

theorem write_pixels565_ok {env : Nat → Bool} {s' : Chan} (colors : List Rgb565)
    (h : ILI9488Rgb565.write_pixels colors ⟨env, 0, []⟩ = (.ok (), s')) :
    s' = ⟨env, 2, [.writeCommand .writeMemoryStart,
      .sendData (.u16beIter (colors.map Rgb565.into_storage))]⟩ := by
  simp only [ILI9488Rgb565.write_pixels, write_command, send_data] at h
  obtain ⟨-, h⟩ := chanOp_bind_ok h
  simp only [Chan.advance] at h
  obtain ⟨-, hs⟩ := chanOp_ok h
  rw [hs]
  simp [Chan.advance]

theorem write_pixels666_ok {env : Nat → Bool} {s' : Chan} (colors : List Rgb666)
    (h : ILI9488Rgb666.write_pixels colors ⟨env, 0, []⟩ = (.ok (), s')) :
    s' = ⟨env, 2, [.writeCommand .writeMemoryStart,
      .sendData (.u8Iter (colors.flatMap fun c =>
        [c.red * 4 % 256, c.green * 4 % 256, c.blue * 4 % 256]))]⟩ := by
  simp only [ILI9488Rgb666.write_pixels, write_command, send_data] at h
  obtain ⟨-, h⟩ := chanOp_bind_ok h
  simp only [Chan.advance] at h
  obtain ⟨-, hs⟩ := chanOp_ok h
  rw [hs]
  simp [Chan.advance]

theorem toBytes_u16be_map (ws : List Rgb565) :
    (DataFormat.u16beIter (ws.map Rgb565.into_storage)).toBytes
      = ws.flatMap (fun c => u16be c.into_storage) := by
  induction ws with
  | nil => rfl
  | cons c cs ih =>
    simp only [DataFormat.toBytes, List.map_cons, List.flatMap_cons] at ih ⊢
    rw [ih]

theorem into_storage_lt (c : Rgb565) : c.into_storage < 65536 := by
  have h1 : c.r % 32 < 32 := Nat.mod_lt _ (by norm_num)
  have h2 : c.g % 64 < 64 := Nat.mod_lt _ (by norm_num)
  have h3 : c.b % 32 < 32 := Nat.mod_lt _ (by norm_num)
  simp only [Rgb565.into_storage]
  omega

theorem u16be_of_lt {w : Nat} (hw : w < 65536) : u16be w = [w / 256, w % 256] := by
  have hd : w / 256 < 256 := Nat.div_lt_of_lt_mul (by omega)
  simp [u16be, Nat.mod_eq_of_lt hd]

theorem flatMap_u16be_length (colors : List Rgb565) :
    (colors.flatMap (fun c => u16be c.into_storage)).length = 2 * colors.length := by
  induction colors with
  | nil => rfl
  | cons c cs ih =>
    rw [List.flatMap_cons, List.length_append, ih]
    simp only [u16be, List.length_cons, List.length_nil]
    omega

theorem rgb666_shifts_eq (colors : List Rgb666) :
    (colors.flatMap fun c => [c.red * 4 % 256, c.green * 4 % 256, c.blue * 4 % 256])
      = colors.flatMap (fun c => [c.red <<< 2, c.green <<< 2, c.blue <<< 2]) := by
  induction colors with
  | nil => rfl
  | cons c cs ih =>
    rw [List.flatMap_cons, List.flatMap_cons, ih]
    have hr : c.r % 64 * 4 % 256 = c.r % 64 * 4 := Nat.mod_eq_of_lt (by omega)
    have hg : c.g % 64 * 4 % 256 = c.g % 64 * 4 := Nat.mod_eq_of_lt (by omega)
    have hb : c.b % 64 * 4 % 256 = c.b % 64 * 4 := Nat.mod_eq_of_lt (by omega)
    simp only [Rgb666.red, Rgb666.green, Rgb666.blue, Nat.shiftLeft_eq, hr, hg, hb]

theorem rgb666_bytes_length (colors : List Rgb666) :
    (colors.flatMap fun c =>
      [c.red * 4 % 256, c.green * 4 % 256, c.blue * 4 % 256]).length
      = 3 * colors.length := by
  induction colors with
  | nil => rfl
  | cons c cs ih =>
    rw [List.flatMap_cons, List.length_append, ih]
    simp only [List.length_cons, List.length_nil]
    omega

/-- C1: for every ModelOptions value and both variants, a successful `init`
issues its commands in the fixed order of §4.3 — reset (hardware pulse cycle or
software reset), 120,000 µs wait, addressing mode, color inversion, pixel
format, power control 1, power control 2, VCOM control, frame-rate control, set
image function, positive gamma table, negative gamma table, display function
control, exit sleep, enter normal mode, 120,000 µs wait, display on — and the
ModelOptions content appears only in command payloads, never in the order. -/
theorem claim1_init_fixed_order (opts : ModelOptions) (rst : Option Bool)
    (env₁ env₂ : Nat → Bool) (a₁ a₂ : SetAddressMode) (s₁ s₂ : Chan)
    (h₁ : ILI9488Rgb565.init opts rst ⟨env₁, 0, []⟩ = (.ok a₁, s₁))
    (h₂ : ILI9488Rgb666.init opts rst ⟨env₂, 0, []⟩ = (.ok a₂, s₂)) :
    s₁.trace = resetEvents rst ++ Event.delayUs 120000 :: initTail opts ⟨.sixteen⟩ ∧
    s₂.trace = resetEvents rst ++ Event.delayUs 120000 :: initTail opts ⟨.eighteen⟩ := by
  rw [init565_eq] at h₁
  rw [init666_eq] at h₂
  obtain ⟨-, hs₁⟩ := initShape_ok opts rst _ h₁
  obtain ⟨-, hs₂⟩ := initShape_ok opts rst _ h₂
  rw [hs₁, hs₂]
  exact ⟨rfl, rfl⟩

/-- Witness for C1: the all-success oracle, no reset handle, default options. -/
theorem claim1_witness :
    ((ILI9488Rgb565.init (ModelOptions.with_sizes (320, 480) (320, 480)) none
        ⟨fun _ => true, 0, []⟩).2).trace
      = resetEvents none ++ Event.delayUs 120000 ::
          initTail (ModelOptions.with_sizes (320, 480) (320, 480)) ⟨.sixteen⟩ ∧
    ((ILI9488Rgb666.init (ModelOptions.with_sizes (320, 480) (320, 480)) none
        ⟨fun _ => true, 0, []⟩).2).trace
      = resetEvents none ++ Event.delayUs 120000 ::
          initTail (ModelOptions.with_sizes (320, 480) (320, 480)) ⟨.eighteen⟩ :=
  claim1_init_fixed_order (ModelOptions.with_sizes (320, 480) (320, 480)) none
    (fun _ => true) (fun _ => true) ⟨0⟩ ⟨0⟩ _ _ rfl rfl

/-- C2: for every finite sequence of Rgb565 colors, a successful `write_pixels`
on the 16-bit variant issues the memory-write-start command first and then
streams, per color in order, the color's native packed 16-bit value serialized
big-endian as 2 bytes, for a data stream of exactly 2 × colorCount bytes. -/
theorem claim2_rgb565_encoding (colors : List Rgb565) (env : Nat → Bool)
    (s' : Chan)
    (h : ILI9488Rgb565.write_pixels colors ⟨env, 0, []⟩ = (.ok (), s')) :
    s'.trace = [.writeCommand .writeMemoryStart,
      .sendData (.u16beIter (colors.map Rgb565.into_storage))] ∧
    (DataFormat.u16beIter (colors.map Rgb565.into_storage)).toBytes
      = colors.flatMap (fun c => u16be c.into_storage) ∧
    (∀ c : Rgb565, c.into_storage < 65536 ∧
      u16be c.into_storage = [c.into_storage / 256, c.into_storage % 256]) ∧
    (DataFormat.u16beIter (colors.map Rgb565.into_storage)).toBytes.length
      = 2 * colors.length := by
  obtain rfl := write_pixels565_ok colors h
  refine ⟨rfl, toBytes_u16be_map colors, ?_, ?_⟩
  · intro c
    exact ⟨into_storage_lt c, u16be_of_lt (into_storage_lt c)⟩
  · rw [toBytes_u16be_map colors]
    exact flatMap_u16be_length colors

/-- Witness for C2: one concrete white pixel, all-success oracle. -/
theorem claim2_witness :
    ((ILI9488Rgb565.write_pixels [⟨31, 63, 31⟩]
        ⟨fun _ => true, 0, []⟩).2).trace
      = [.writeCommand .writeMemoryStart,
         .sendData (.u16beIter ([⟨31, 63, 31⟩].map Rgb565.into_storage))] :=
  (claim2_rgb565_encoding [⟨31, 63, 31⟩] (fun _ => true) _ rfl).1

/-- C3: for every finite sequence of Rgb666 colors, a successful `write_pixels`
on the 18-bit variant issues the memory-write-start command first and then
streams, per color in order, exactly 3 bytes — the red, green and blue channel
values each left-shifted by 2 bits, in that order — for a data stream of
exactly 3 × colorCount bytes. -/
theorem claim3_rgb666_encoding (colors : List Rgb666) (env : Nat → Bool)
    (s' : Chan)
    (h : ILI9488Rgb666.write_pixels colors ⟨env, 0, []⟩ = (.ok (), s')) :
    s'.trace = [.writeCommand .writeMemoryStart,
      .sendData (.u8Iter (colors.flatMap fun c =>
        [c.red * 4 % 256, c.green * 4 % 256, c.blue * 4 % 256]))] ∧
    (colors.flatMap fun c => [c.red * 4 % 256, c.green * 4 % 256, c.blue * 4 % 256])
      = colors.flatMap (fun c => [c.red <<< 2, c.green <<< 2, c.blue <<< 2]) ∧
    (DataFormat.u8Iter (colors.flatMap fun c =>
      [c.red * 4 % 256, c.green * 4 % 256, c.blue * 4 % 256])).toBytes.length
      = 3 * colors.length := by
  obtain rfl := write_pixels666_ok colors h
  exact ⟨rfl, rgb666_shifts_eq colors, rgb666_bytes_length colors⟩

/-- Witness for C3: one concrete color, all-success oracle. -/
theorem claim3_witness :
    ((ILI9488Rgb666.write_pixels [⟨63, 0, 21⟩]
        ⟨fun _ => true, 0, []⟩).2).trace
      = [.writeCommand .writeMemoryStart,
         .sendData (.u8Iter (([⟨63, 0, 21⟩] : List Rgb666).flatMap fun c =>
           [c.red * 4 % 256, c.green * 4 % 256, c.blue * 4 % 256]))] :=
  (claim3_rgb666_encoding [⟨63, 0, 21⟩] (fun _ => true) _ rfl).1

/-- C9: both variants' `default_options()` is the fixed ModelOptions with
framebuffer size 320×480 and display size 320×480, and this is the sizing the
construction entry points apply unless overridden. -/
theorem claim9_default_options :
    ILI9488Rgb565.default_options = ModelOptions.with_sizes (320, 480) (320, 480) ∧
    ILI9488Rgb666.default_options = ModelOptions.with_sizes (320, 480) (320, 480) ∧
    ILI9488Rgb565.default_options.framebuffer_size = (320, 480) ∧
    ILI9488Rgb565.default_options.display_size = (320, 480) ∧
    ILI9488Rgb666.default_options.framebuffer_size = (320, 480) ∧
    ILI9488Rgb666.default_options.display_size = (320, 480) ∧
    Builder.ili9488_rgb565.options = ILI9488Rgb565.default_options ∧
    Builder.ili9488_rgb666.options = ILI9488Rgb666.default_options :=
  ⟨rfl, rfl, rfl, rfl, rfl, rfl, rfl, rfl⟩

theorem softReset_not_mem_initTail (opts : ModelOptions) (pf : PixelFormat) :
    Event.writeCommand .softReset ∉ initTail opts pf := by
  simp [initTail]

theorem resetAssert_not_mem_initTail (opts : ModelOptions) (pf : PixelFormat) :
    Event.resetAssert ∉ initTail opts pf := by
  simp [initTail]

theorem resetRelease_not_mem_initTail (opts : ModelOptions) (pf : PixelFormat) :
    Event.resetRelease ∉ initTail opts pf := by
  simp [initTail]

theorem initShape_hw {env : Nat → Bool} {r : Except InitError SetAddressMode}
    {s' : Chan} (opts : ModelOptions) (pf : PixelFormat) (pinOk : Bool)
    (h : initShape opts (some pinOk) pf ⟨env, 0, []⟩ = (r, s')) :
    Event.writeCommand .softReset ∉ s'.trace ∧
    s'.trace.head? = some .resetAssert ∧
    (∀ a, r = .ok a → s'.trace.take 3 =
      [.resetAssert, .delayUs resetSettleUs, .resetRelease]) := by
  rcases initShape_run opts (some pinOk) pf h with ht | ⟨k, hk, ht⟩
  · refine ⟨by rw [ht]; simp [resetAbort], by rw [ht]; simp [resetAbort], ?_⟩
    intro a ha
    subst ha
    obtain ⟨-, hs⟩ := initShape_ok opts (some pinOk) pf h
    rw [hs] at ht
    exfalso
    simp [resetAbort, resetEvents, initTail] at ht
  · have hnot : Event.writeCommand .softReset ∉ (initTail opts pf).take k :=
      fun hm => softReset_not_mem_initTail opts pf (List.take_subset k _ hm)
    rw [ht]
    refine ⟨?_, by simp [resetEvents], by intro a _; simp [resetEvents]⟩
    simp [resetEvents]
    exact fun hm => hnot hm

theorem initShape_sw {env : Nat → Bool} {r : Except InitError SetAddressMode}
    {s' : Chan} (opts : ModelOptions) (pf : PixelFormat)
    (h : initShape opts none pf ⟨env, 0, []⟩ = (r, s')) :
    s'.trace.count (Event.writeCommand .softReset) = 1 ∧
    Event.resetAssert ∉ s'.trace ∧ Event.resetRelease ∉ s'.trace := by
  rcases initShape_run opts none pf h with ht | ⟨k, hk, ht⟩ <;> rw [ht]
  · simp [resetAbort]
  · have hnot : Event.writeCommand .softReset ∉ (initTail opts pf).take k :=
      fun hm => softReset_not_mem_initTail opts pf (List.take_subset k _ hm)
    have hna : Event.resetAssert ∉ (initTail opts pf).take k :=
      fun hm => resetAssert_not_mem_initTail opts pf (List.take_subset k _ hm)
    have hnr : Event.resetRelease ∉ (initTail opts pf).take k :=
      fun hm => resetRelease_not_mem_initTail opts pf (List.take_subset k _ hm)
    refine ⟨?_, by simp [resetEvents]; exact fun hm => hna hm,
      by simp [resetEvents]; exact fun hm => hnr hm⟩
    simp [resetEvents, List.count_cons, List.count_eq_zero.mpr hnot]

/-- C4: for both variants — with a reset handle, `init` performs the hardware
reset pulse sequence on the pin and never issues the software-reset command;
without one, it issues exactly one software-reset command and performs no pin
pulse. -/
theorem claim4_reset_choice (opts : ModelOptions) (pinOk : Bool)
    (env₁ env₂ env₃ env₄ : Nat → Bool)
    (r₁ r₂ r₃ r₄ : Except InitError SetAddressMode) (s₁ s₂ s₃ s₄ : Chan)
    (h₁ : ILI9488Rgb565.init opts (some pinOk) ⟨env₁, 0, []⟩ = (r₁, s₁))
    (h₂ : ILI9488Rgb666.init opts (some pinOk) ⟨env₂, 0, []⟩ = (r₂, s₂))
    (h₃ : ILI9488Rgb565.init opts none ⟨env₃, 0, []⟩ = (r₃, s₃))
    (h₄ : ILI9488Rgb666.init opts none ⟨env₄, 0, []⟩ = (r₄, s₄)) :
    (Event.writeCommand .softReset ∉ s₁.trace ∧
      s₁.trace.head? = some .resetAssert ∧
      (∀ a, r₁ = .ok a → s₁.trace.take 3 =
        [.resetAssert, .delayUs resetSettleUs, .resetRelease])) ∧
    (Event.writeCommand .softReset ∉ s₂.trace ∧
      s₂.trace.head? = some .resetAssert ∧
      (∀ a, r₂ = .ok a → s₂.trace.take 3 =
        [.resetAssert, .delayUs resetSettleUs, .resetRelease])) ∧
    (s₃.trace.count (Event.writeCommand .softReset) = 1 ∧
      Event.resetAssert ∉ s₃.trace ∧ Event.resetRelease ∉ s₃.trace) ∧
    (s₄.trace.count (Event.writeCommand .softReset) = 1 ∧
      Event.resetAssert ∉ s₄.trace ∧ Event.resetRelease ∉ s₄.trace) := by
  rw [init565_eq] at h₁ h₃
  rw [init666_eq] at h₂ h₄
  exact ⟨initShape_hw opts _ pinOk h₁, initShape_hw opts _ pinOk h₂,
    initShape_sw opts _ h₃, initShape_sw opts _ h₄⟩

/-- Witness for C4: concrete all-success run with a working reset pin never
issues the software-reset command. -/
theorem claim4_witness :
    Event.writeCommand DcsCommand.softReset ∉
      ((ILI9488Rgb565.init (ModelOptions.with_sizes (320, 480) (320, 480))
          (some true) ⟨fun _ => true, 0, []⟩).2).trace :=
  (claim4_reset_choice (ModelOptions.with_sizes (320, 480) (320, 480)) true
    (fun _ => true) (fun _ => true) (fun _ => true) (fun _ => true)
    _ _ _ _ _ _ _ _ rfl rfl rfl rfl).1.1

/-- C5: for both variants — a successful `init` returns exactly the
AddressModeDescriptor computed deterministically from the ModelOptions and
written in the addressing-mode step; a reset-pin failure aborts immediately
(nothing issued beyond the first pin edge) with the error wrapped as a pin
error; on the software-reset path or with a working pin, any failing command
write surfaces as the transport-wrapped error; and every failing run aborts
immediately with no retry and no rollback: its trace is an initial segment of
the fixed command sequence, so nothing is issued after the failing step and no
step is repeated. -/
theorem claim5_result_and_errors (opts : ModelOptions) :
    (∀ (rst : Option Bool) (env : Nat → Bool) (a : SetAddressMode) (s' : Chan),
      ILI9488Rgb565.init opts rst ⟨env, 0, []⟩ = (.ok a, s') →
      a = SetAddressMode.ofOptions opts ∧
      Event.writeCommand (.setAddressMode a) ∈ s'.trace) ∧
    (∀ (rst : Option Bool) (env : Nat → Bool) (a : SetAddressMode) (s' : Chan),
      ILI9488Rgb666.init opts rst ⟨env, 0, []⟩ = (.ok a, s') →
      a = SetAddressMode.ofOptions opts ∧
      Event.writeCommand (.setAddressMode a) ∈ s'.trace) ∧
    (∀ (env : Nat → Bool) (idx : Nat) (tr : List Event),
      ILI9488Rgb565.init opts (some false) ⟨env, idx, tr⟩ =
        (.error (.pin .failed), ⟨env, idx, tr ++ [.resetAssert]⟩) ∧
      ILI9488Rgb666.init opts (some false) ⟨env, idx, tr⟩ =
        (.error (.pin .failed), ⟨env, idx, tr ++ [.resetAssert]⟩)) ∧
    (∀ (rst : Option Bool) (env : Nat → Bool) (e : InitError) (s' : Chan),
      rst = none ∨ rst = some true →
      ILI9488Rgb565.init opts rst ⟨env, 0, []⟩ = (.error e, s') →
      e = .displayError) ∧
    (∀ (rst : Option Bool) (env : Nat → Bool) (e : InitError) (s' : Chan),
      rst = none ∨ rst = some true →
      ILI9488Rgb666.init opts rst ⟨env, 0, []⟩ = (.error e, s') →
      e = .displayError) ∧
    (∀ (rst : Option Bool) (env : Nat → Bool) (e : InitError) (s' : Chan),
      ILI9488Rgb565.init opts rst ⟨env, 0, []⟩ = (.error e, s') →
      s'.trace = resetAbort rst ∨
      ∃ k, k ≤ 15 ∧ s'.trace = resetEvents rst ++
        Event.delayUs 120000 :: (initTail opts ⟨.sixteen⟩).take k) ∧
    (∀ (rst : Option Bool) (env : Nat → Bool) (e : InitError) (s' : Chan),
      ILI9488Rgb666.init opts rst ⟨env, 0, []⟩ = (.error e, s') →
      s'.trace = resetAbort rst ∨
      ∃ k, k ≤ 15 ∧ s'.trace = resetEvents rst ++
        Event.delayUs 120000 :: (initTail opts ⟨.eighteen⟩).take k) := by
  refine ⟨?_, ?_, ?_, ?_, ?_, ?_, ?_⟩
  · intro rst env a s' h
    rw [init565_eq] at h
    obtain ⟨ha, hs⟩ := initShape_ok opts rst _ h
    refine ⟨ha, ?_⟩
    rw [hs, ha]
    simp [initTail]
  · intro rst env a s' h
    rw [init666_eq] at h
    obtain ⟨ha, hs⟩ := initShape_ok opts rst _ h
    refine ⟨ha, ?_⟩
    rw [hs, ha]
    simp [initTail]
  · intro env idx tr
    exact ⟨initShape_pinfail opts ⟨.sixteen⟩ env idx tr,
      initShape_pinfail opts ⟨.eighteen⟩ env idx tr⟩
  · intro rst env e s' hr h
    rw [init565_eq] at h
    exact initShape_err opts rst _ h hr
  · intro rst env e s' hr h
    rw [init666_eq] at h
    exact initShape_err opts rst _ h hr
  · intro rst env e s' h
    rw [init565_eq] at h
    simpa using initShape_run opts rst _ h
  · intro rst env e s' h
    rw [init666_eq] at h
    simpa using initShape_run opts rst _ h

/-- Witness for C5: a concrete failing reset pin yields the pin-wrapped error
and an immediate abort after the first pin edge. -/
theorem claim5_witness :
    ILI9488Rgb565.init (ModelOptions.with_sizes (320, 480) (320, 480))
      (some false) ⟨fun _ => true, 0, []⟩ =
      (.error (InitError.pin .failed), ⟨fun _ => true, 0, [.resetAssert]⟩) :=
  ((claim5_result_and_errors (ModelOptions.with_sizes (320, 480) (320, 480))).2.2.1
    (fun _ => true) 0 []).1

/-- C6 counterexample: with a reset handle supplied, a successful `init` run
invokes the delay provider three times — the provider-defined settle delay of
the hardware reset cycle plus the two 120,000 µs waits — so the delay provider
is not invoked exactly twice on every call. -/
theorem claim6_counterexample :
    ¬ ((((ILI9488Rgb565.init (ModelOptions.with_sizes (320, 480) (320, 480))
        (some true) ⟨fun _ => true, 0, []⟩).2).trace.filter
          Event.isDelay).length = 2) := by
  decide

/-- C6 amended: the two fixed init delays are 120,000 µs each — one after the
reset step and one immediately before display-on.  On the software-reset path
they are the only delay-provider invocations (exactly two); on the
hardware-reset path the provider is additionally invoked once, for the
provider-defined settle time inside the reset cycle. -/
theorem claim6_delays (opts : ModelOptions) (rst : Option Bool)
    (env₁ env₂ : Nat → Bool) (a₁ a₂ : SetAddressMode) (s₁ s₂ : Chan)
    (h₁ : ILI9488Rgb565.init opts rst ⟨env₁, 0, []⟩ = (.ok a₁, s₁))
    (h₂ : ILI9488Rgb666.init opts rst ⟨env₂, 0, []⟩ = (.ok a₂, s₂)) :
    (rst = none →
      s₁.trace.filter Event.isDelay = [.delayUs 120000, .delayUs 120000] ∧
      s₂.trace.filter Event.isDelay = [.delayUs 120000, .delayUs 120000]) ∧
    (∀ p, rst = some p →
      s₁.trace.filter Event.isDelay =
        [.delayUs resetSettleUs, .delayUs 120000, .delayUs 120000] ∧
      s₂.trace.filter Event.isDelay =
        [.delayUs resetSettleUs, .delayUs 120000, .delayUs 120000]) := by
  rw [init565_eq] at h₁
  rw [init666_eq] at h₂
  obtain ⟨-, hs₁⟩ := initShape_ok opts rst _ h₁
  obtain ⟨-, hs₂⟩ := initShape_ok opts rst _ h₂
  rw [hs₁, hs₂]
  constructor
  · rintro rfl
    constructor <;> simp [resetEvents, initTail, Event.isDelay]
  · rintro p rfl
    constructor <;> simp [resetEvents, initTail, Event.isDelay]

/-- Witness for the amended C6: a concrete software-reset run has exactly the
two 120,000 µs delays. -/
theorem claim6_witness :
    ((ILI9488Rgb565.init (ModelOptions.with_sizes (320, 480) (320, 480)) none
      ⟨fun _ => true, 0, []⟩).2).trace.filter Event.isDelay
      = [.delayUs 120000, .delayUs 120000] :=
  ((claim6_delays (ModelOptions.with_sizes (320, 480) (320, 480)) none
    (fun _ => true) (fun _ => true) ⟨0⟩ ⟨0⟩ _ _ rfl rfl).1 rfl).1

/-- C7: for both variants, `write_pixels` with an empty color sequence succeeds
(when the transport accepts its two channel operations), issues the
memory-write-start command, and sends zero pixel-data bytes. -/
theorem claim7_empty_sequence (env₁ env₂ : Nat → Bool)
    (h₁ : env₁ 0 = true) (h₂ : env₁ 1 = true)
    (h₃ : env₂ 0 = true) (h₄ : env₂ 1 = true) :
    ILI9488Rgb565.write_pixels [] ⟨env₁, 0, []⟩ =
      (.ok (), ⟨env₁, 2,
        [.writeCommand .writeMemoryStart, .sendData (.u16beIter [])]⟩) ∧
    (DataFormat.u16beIter []).toBytes = [] ∧
    ILI9488Rgb666.write_pixels [] ⟨env₂, 0, []⟩ =
      (.ok (), ⟨env₂, 2,
        [.writeCommand .writeMemoryStart, .sendData (.u8Iter [])]⟩) ∧
    (DataFormat.u8Iter []).toBytes = [] := by
  refine ⟨?_, rfl, ?_, rfl⟩
  · simp [ILI9488Rgb565.write_pixels, DcsM.bind, write_command, send_data,
      chanOp, Chan.advance, h₁, h₂]
  · simp [ILI9488Rgb666.write_pixels, DcsM.bind, write_command, send_data,
      chanOp, Chan.advance, h₃, h₄]

/-- Witness for C7: the all-success oracle on the 16-bit variant. -/
theorem claim7_witness :
    ILI9488Rgb565.write_pixels [] ⟨fun _ => true, 0, []⟩ =
      (.ok (), ⟨fun _ => true, 2,
        [.writeCommand .writeMemoryStart, .sendData (.u16beIter [])]⟩) :=
  (claim7_empty_sequence (fun _ => true) (fun _ => true) rfl rfl rfl rfl).1

/-- C8: the raw register writes performed by a successful `init` use exactly the
fixed opcode table — power control 1 0xC0, power control 2 0xC1, VCOM control 1
0xC5, frame-rate control 1 0xB1, driver timing control A 0xE9, positive gamma
0xE0, negative gamma 0xE1, display function control 0xB6 — and the two gamma
payloads are constant tables of exactly 15 bytes each. -/
theorem claim8_opcode_table (opts : ModelOptions) (rst : Option Bool)
    (env₁ env₂ : Nat → Bool) (a₁ a₂ : SetAddressMode) (s₁ s₂ : Chan)
    (h₁ : ILI9488Rgb565.init opts rst ⟨env₁, 0, []⟩ = (.ok a₁, s₁))
    (h₂ : ILI9488Rgb666.init opts rst ⟨env₂, 0, []⟩ = (.ok a₂, s₂)) :
    Instruction.GMCTRP1.val = 0xE0 ∧ Instruction.GMCTRN1.val = 0xE1 ∧
    Instruction.PWCTR1.val = 0xC0 ∧ Instruction.PWCTR2.val = 0xC1 ∧
    Instruction.VMCTR1.val = 0xC5 ∧ Instruction.FRMCTR1.val = 0xB1 ∧
    Instruction.DFUNCTR.val = 0xB6 ∧ Instruction.SIMFUNC.val = 0xE9 ∧
    s₁.trace.filterMap Event.rawPair =
      [(0xC0, [0x17, 0x15]), (0xC1, [0x41]), (0xC5, [0x00, 0x12, 0x80]),
       (0xB1, [0xA0]), (0xE9, [0x00]),
       (0xE0, [0x00, 0x03, 0x09, 0x08, 0x16, 0x0A, 0x3F, 0x78, 0x4C, 0x09,
         0x0A, 0x08, 0x16, 0x1A, 0x0F]),
       (0xE1, [0x00, 0x0E, 0x14, 0x03, 0x11, 0x07, 0x31, 0xC1, 0x48, 0x08,
         0x0F, 0x0C, 0x31, 0x36, 0x0F]),
       (0xB6, [0x02, 0x02, 0x3B])] ∧
    s₂.trace.filterMap Event.rawPair = s₁.trace.filterMap Event.rawPair ∧
    ([0x00, 0x03, 0x09, 0x08, 0x16, 0x0A, 0x3F, 0x78, 0x4C, 0x09, 0x0A, 0x08,
      0x16, 0x1A, 0x0F] : List Nat).length = 15 ∧
    ([0x00, 0x0E, 0x14, 0x03, 0x11, 0x07, 0x31, 0xC1, 0x48, 0x08, 0x0F, 0x0C,
      0x31, 0x36, 0x0F] : List Nat).length = 15 := by
  rw [init565_eq] at h₁
  rw [init666_eq] at h₂
  obtain ⟨-, hs₁⟩ := initShape_ok opts rst _ h₁
  obtain ⟨-, hs₂⟩ := initShape_ok opts rst _ h₂
  rw [hs₁, hs₂]
  refine ⟨rfl, rfl, rfl, rfl, rfl, rfl, rfl, rfl, ?_, ?_, rfl, rfl⟩ <;>
    cases rst <;> simp [resetEvents, initTail, Event.rawPair]

/-- Witness for C8: concrete all-success software-reset run on both variants. -/
theorem claim8_witness :
    Instruction.GMCTRP1.val = 0xE0 ∧ Instruction.GMCTRN1.val = 0xE1 ∧
    Instruction.PWCTR1.val = 0xC0 ∧ Instruction.PWCTR2.val = 0xC1 ∧
    Instruction.VMCTR1.val = 0xC5 ∧ Instruction.FRMCTR1.val = 0xB1 ∧
    Instruction.DFUNCTR.val = 0xB6 ∧ Instruction.SIMFUNC.val = 0xE9 :=
  let h := claim8_opcode_table (ModelOptions.with_sizes (320, 480) (320, 480))
    none (fun _ => true) (fun _ => true) ⟨0⟩ ⟨0⟩ _ _ rfl rfl
  ⟨h.1, h.2.1, h.2.2.1, h.2.2.2.1, h.2.2.2.2.1, h.2.2.2.2.2.1,
   h.2.2.2.2.2.2.1, h.2.2.2.2.2.2.2.1⟩

/-- C10: for both variants, if the memory-write-start command write fails,
`write_pixels` returns that error immediately and the data-send operation on
the channel is never invoked; pixel data is sent only after the command write
has succeeded. -/
theorem claim10_no_data_after_failure (colors₅ : List Rgb565)
    (colors₆ : List Rgb666) (env₁ env₂ : Nat → Bool)
    (hf₁ : env₁ 0 = false) (hf₂ : env₂ 0 = false) :
    ILI9488Rgb565.write_pixels colors₅ ⟨env₁, 0, []⟩ =
      (.error .displayError, ⟨env₁, 1, [.writeCommand .writeMemoryStart]⟩) ∧
    ILI9488Rgb666.write_pixels colors₆ ⟨env₂, 0, []⟩ =
      (.error .displayError, ⟨env₂, 1, [.writeCommand .writeMemoryStart]⟩) ∧
    (∀ d : DataFormat,
      Event.sendData d ∉ [Event.writeCommand DcsCommand.writeMemoryStart]) ∧
    (∀ (env : Nat → Bool) (r : Except Error Unit) (s' : Chan) (d : DataFormat),
      ILI9488Rgb565.write_pixels colors₅ ⟨env, 0, []⟩ = (r, s') →
      Event.sendData d ∈ s'.trace → env 0 = true) ∧
    (∀ (env : Nat → Bool) (r : Except Error Unit) (s' : Chan) (d : DataFormat),
      ILI9488Rgb666.write_pixels colors₆ ⟨env, 0, []⟩ = (r, s') →
      Event.sendData d ∈ s'.trace → env 0 = true) := by
  refine ⟨?_, ?_, by simp, ?_, ?_⟩
  · simp [ILI9488Rgb565.write_pixels, DcsM.bind, write_command, send_data,
      chanOp, Chan.advance, hf₁]
  · simp [ILI9488Rgb666.write_pixels, DcsM.bind, write_command, send_data,
      chanOp, Chan.advance, hf₂]
  · intro env r s' d h hm
    by_cases hx : env 0
    · exact hx
    · exfalso
      simp only [ILI9488Rgb565.write_pixels, DcsM.bind, write_command,
        send_data, chanOp, Chan.advance] at h
      rw [if_neg (by simpa using hx)] at h
      simp only [Prod.mk.injEq] at h
      rw [← h.2] at hm
      simp at hm
  · intro env r s' d h hm
    by_cases hx : env 0
    · exact hx
    · exfalso
      simp only [ILI9488Rgb666.write_pixels, DcsM.bind, write_command,
        send_data, chanOp, Chan.advance] at h
      rw [if_neg (by simpa using hx)] at h
      simp only [Prod.mk.injEq] at h
      rw [← h.2] at hm
      simp at hm

/-- Witness for C10: a concrete failing first channel operation on the 16-bit
variant aborts with the transport error and no data-send event. -/
theorem claim10_witness :
    ILI9488Rgb565.write_pixels [⟨1, 2, 3⟩] ⟨fun _ => false, 0, []⟩ =
      (.error .displayError,
       ⟨fun _ => false, 1, [.writeCommand .writeMemoryStart]⟩) :=
  (claim10_no_data_after_failure [⟨1, 2, 3⟩] [] (fun _ => false) (fun _ => false)
    rfl rfl).1
